import Mathlib

/-!
Verification development for the obsidian-openclaw gateway client.

Shallow embedding of:
* the WebSocket connection state machine (`WsGatewayClient`, ws-gateway-client.ts),
* the RPC correlation layer (pending request map, timeouts),
* the chat session router (`GatewayClient.handleChatEvent`, gateway-client.ts),
* the device-identity helpers (`buildDeviceAuthPayload`, `validateDeviceIdentity`,
  `hexEncode`, `base64UrlDecode`, device-identity.ts).

Stateful TypeScript methods are modelled as pure functions
`WsClient → WsClient × List Effect`, where `Effect` records the externally
observable callbacks (state-change notifications, socket operations, promise
resolutions).  Timers are modelled by fields that record whether the timer is
armed (and with what delay/period); a timer callback is a separate step
function that the environment may invoke while the timer is armed.
-/

/-- Connection state (`WsConnectionState` in ws-gateway-client.ts). -/
inductive WsConnectionState where
  | disconnected
  | connecting
  | authenticating
  | connected
  | reconnecting
  | pairing_required
deriving DecidableEq, Repr

/-- Response payloads are `Record<string, unknown>` in the source; the client
only passes them through, so they are modelled as opaque association lists. -/
abbrev GwPayload := List (String × String)

/-- Externally observable actions of the WS client: invocations of the
callbacks in `WsGatewayClientOptions`, socket operations, and the
resolution/rejection of the promises held in the pending map. -/
inductive Effect where
  /-- `opts.onStateChange?.(state)` -/
  | stateChange (s : WsConnectionState)
  /-- `new WebSocket(url)` succeeded -/
  | wsCreate
  /-- `ws.close(code?, reason)`; `none` models the zero-argument `ws.close()` -/
  | wsClose (code : Option Nat) (reason : String)
  /-- `ws.send(JSON.stringify(frame))` for a request frame -/
  | wsSend (id method : String)
  /-- a pending RPC promise resolved with the response payload -/
  | rpcResolve (id : String) (payload : Option GwPayload)
  /-- a pending RPC promise rejected (optional error code, message) -/
  | rpcReject (id : String) (code : Option String) (message : String)
  /-- `opts.onPairingRequired?.()` -/
  | pairingRequired
  /-- `opts.onConnectError?.(err)` -/
  | connectError (message : String)
  /-- `opts.onDeviceTokenReceived?.(newToken)` -/
  | deviceTokenReceived (token : String)
deriving DecidableEq, Repr

/-- Pending RPC entry (`PendingRequest`): the resolve/reject callbacks become
`rpcResolve`/`rpcReject` effects tagged with the correlation id; the data the
timeout closure captured in `request` (method name and timeout) is stored so
the timer callback can be replayed.  The per-entry timer is armed exactly
while the entry is in the map (created armed; every removal path either fired
or cleared it). -/
structure PendingEntry where
  method : String
  timeoutMs : Nat
deriving DecidableEq, Repr

/-- State of `WsGatewayClient` (its private fields).  `ws` is `true` when
`this.ws !== null`; `wsOpen` when additionally `readyState === OPEN`.
`connectTimer` / `tickTimer` / `reconnectTimer` record the armed timers
(`tickTimer` holds the interval period, `reconnectTimer` the scheduled
delay). -/
structure WsClient where
  ws : Bool
  wsOpen : Bool
  pending : List (String × PendingEntry)
  state : WsConnectionState
  connectNonce : Option String
  connectSent : Bool
  connectTimer : Bool
  tickTimer : Option Nat
  lastTick : Option Nat
  tickIntervalMs : Nat
  backoffMs : Nat
  closed : Bool
  reconnectTimer : Option Nat
deriving DecidableEq, Repr

/-- Field initializers of `WsGatewayClient`. -/
def initialClient : WsClient :=
  { ws := false
    wsOpen := false
    pending := []
    state := .disconnected
    connectNonce := none
    connectSent := false
    connectTimer := false
    tickTimer := none
    lastTick := none
    tickIntervalMs := 30000
    backoffMs := 1000
    closed := false
    reconnectTimer := none }

/-- `setState`: update only on an actual change, then notify. -/
def setState (c : WsClient) (s : WsConnectionState) : WsClient × List Effect :=
  if c.state = s then (c, [])
  else ({ c with state := s }, [Effect.stateChange s])

/-- `clearTimers`: cancel the connect timeout, tick interval and reconnect
timer. -/
def clearTimers (c : WsClient) : WsClient :=
  { c with connectTimer := false, tickTimer := none, reconnectTimer := none }

/-- `flushPending(err)`: reject every pending entry with `err` (clearing its
timer) and clear the map. -/
def flushPending (c : WsClient) (message : String) : WsClient × List Effect :=
  ({ c with pending := [] },
   c.pending.map fun p => Effect.rpcReject p.1 none message)

/-- `scheduleReconnect`: no-op when explicitly stopped; otherwise clear all
timers, schedule a reconnect after the current backoff delay, and double the
backoff up to the 30000 ms ceiling. -/
def scheduleReconnect (c : WsClient) : WsClient :=
  if c.closed then c
  else
    let c := clearTimers c
    { c with
      backoffMs := min (c.backoffMs * 2) 30000
      reconnectTimer := some c.backoffMs }

/-- `startTickWatch`: (re)arm the keep-alive interval with period
`max(tickIntervalMs, 1000)`. -/
def startTickWatch (c : WsClient) : WsClient :=
  { c with tickTimer := some (max c.tickIntervalMs 1000) }

/-- `connect()`: drop any existing socket, reset the handshake guards, enter
`connecting`, and construct a new socket.  `ctorOk` is `false` when
`new WebSocket(url)` throws (the `catch` branch). -/
def connect (c : WsClient) (ctorOk : Bool) : WsClient × List Effect :=
  let (c, closeEffs) :=
    if c.ws then ({ c with ws := false, wsOpen := false }, [Effect.wsClose none ""])
    else (c, [])
  let c := { c with connectNonce := none, connectSent := false }
  let (c, stEffs) := setState c .connecting
  if ctorOk then
    ({ c with ws := true, wsOpen := false }, closeEffs ++ stEffs ++ [Effect.wsCreate])
  else
    let (c, stEffs2) := setState c .disconnected
    (scheduleReconnect c, closeEffs ++ stEffs ++ stEffs2)

/-- `start()`: guarded by the `closed` flag set in `stop()`. -/
def start (c : WsClient) (ctorOk : Bool) : WsClient × List Effect :=
  if c.closed then (c, [])
  else connect c ctorOk

/-- `stop()`: mark explicitly stopped, cancel all timers, close the socket
cleanly, reject all pending RPCs, set state to `disconnected`. -/
def stop (c : WsClient) : WsClient × List Effect :=
  let c := { c with closed := true }
  let c := clearTimers c
  let (c, closeEffs) :=
    if c.ws then
      ({ c with ws := false, wsOpen := false }, [Effect.wsClose (some 1000) "client stopped"])
    else (c, [])
  let (c, flushEffs) := flushPending c "client stopped"
  let (c, stEffs) := setState c .disconnected
  (c, closeEffs ++ flushEffs ++ stEffs)

/-- `restart()`: clear the `closed` flag, tear the old socket down, cancel
timers, reject pending RPCs, and reconnect. -/
def restart (c : WsClient) (ctorOk : Bool) : WsClient × List Effect :=
  let c := { c with closed := false }
  let (c, closeEffs) :=
    if c.ws then
      ({ c with ws := false, wsOpen := false }, [Effect.wsClose (some 1000) "client restarting"])
    else (c, [])
  let c := clearTimers c
  let (c, flushEffs) := flushPending c "client restarting"
  let (c, connEffs) := connect c ctorOk
  (c, closeEffs ++ flushEffs ++ connEffs)

/-- `ws.onopen` handler: enter `authenticating` and arm the 5 s connect
challenge timeout (`queueConnectTimeout`). -/
def wsOnOpen (c : WsClient) : WsClient × List Effect :=
  let c := { c with wsOpen := true }
  let (c, stEffs) := setState c .authenticating
  ({ c with connectTimer := true }, stEffs)

/-- `ws.onclose` handler: forget the socket, reject all pending RPCs, then
either go to `reconnecting` and schedule a reconnect (not explicitly
stopped), or settle in `disconnected`. -/
def wsOnClose (c : WsClient) : WsClient × List Effect :=
  let c := { c with ws := false, wsOpen := false }
  let (c, flushEffs) := flushPending c "WebSocket closed"
  if ¬ c.closed then
    let (c, stEffs) := setState c .reconnecting
    (scheduleReconnect c, flushEffs ++ stEffs)
  else
    let (c, stEffs) := setState c .disconnected
    (c, flushEffs ++ stEffs)

/-- Reconnect timer callback: disarm the timer, then reconnect unless
explicitly stopped in the meantime. -/
def reconnectTimerFire (c : WsClient) (ctorOk : Bool) : WsClient × List Effect :=
  let c := { c with reconnectTimer := none }
  if ¬ c.closed then connect c ctorOk
  else (c, [])

/-- `tick` event handler branch of `handleEvent`: record the arrival time. -/
def handleEventTick (c : WsClient) (now : Nat) : WsClient :=
  { c with lastTick := some now }

/-- One firing of the keep-alive interval armed by `startTickWatch`: close
the socket abnormally when the time since the last tick exceeds 2.5 times
the tick interval.  The source compares `now - lastTick > tickIntervalMs * 2.5`
on millisecond numbers; over integers this is exactly
`2 * (now - lastTick) > 5 * tickIntervalMs`. -/
def tickCheck (c : WsClient) (now : Nat) : WsClient × List Effect :=
  if c.closed then (c, [])
  else
    match c.lastTick with
    | none => (c, [])
    | some lt =>
      if 2 * (now - lt) > 5 * c.tickIntervalMs then
        (c, if c.ws then [Effect.wsClose (some 4000) "tick timeout"] else [])
      else (c, [])

/-- Gateway error object of a response frame (`GatewayResponse.error`). -/
structure GwError where
  code : Option String
  message : String
deriving DecidableEq, Repr

/-- Gateway response frame (`GatewayResponse`). -/
structure GatewayResponse where
  id : String
  ok : Bool
  payload : Option GwPayload
  error : Option GwError
deriving DecidableEq, Repr

/-- Lookup in the pending map (`this.pending.get(id)`). -/
def pendingFind (pending : List (String × PendingEntry)) (id : String) :
    Option (String × PendingEntry) :=
  pending.find? fun p => p.1 == id

/-- Removal from the pending map (`this.pending.delete(id)`). -/
def pendingErase (pending : List (String × PendingEntry)) (id : String) :
    List (String × PendingEntry) :=
  pending.filter fun p => !(p.1 == id)

/-- Insertion into the pending map (`this.pending.set(id, entry)`); a `Map`
overwrites an existing key. -/
def pendingSet (pending : List (String × PendingEntry)) (id : String)
    (e : PendingEntry) : List (String × PendingEntry) :=
  pendingErase pending id ++ [(id, e)]

/-- `request(method, params, timeoutMs = 30000)` up to its first suspension:
fails when the socket is not open, otherwise registers the pending entry
(with its timeout timer armed) and sends the frame.  `id` stands for the
fresh `crypto.randomUUID()`. -/
def request (c : WsClient) (id method : String) (timeoutMs : Nat) :
    Except String (WsClient × List Effect) :=
  if ¬ (c.ws ∧ c.wsOpen) then .error "WebSocket not connected"
  else
    .ok ({ c with pending := pendingSet c.pending id ⟨method, timeoutMs⟩ },
         [Effect.wsSend id method])

/-- `handleResponse`: unknown correlation ids are ignored; otherwise the
entry is removed, its timer cleared, and the promise resolved (on `ok`) or
rejected with the error message/code. -/
def handleResponse (c : WsClient) (res : GatewayResponse) : WsClient × List Effect :=
  match pendingFind c.pending res.id with
  | none => (c, [])
  | some _ =>
    let c := { c with pending := pendingErase c.pending res.id }
    if res.ok then (c, [Effect.rpcResolve res.id res.payload])
    else
      (c, [Effect.rpcReject res.id ((res.error).bind GwError.code)
             (((res.error).map GwError.message).getD "unknown gateway error")])

/-- The rejection message produced by the timeout closure in `request`. -/
def rpcTimeoutMessage (method : String) (timeoutMs : Nat) : String :=
  "RPC timeout: " ++ method ++ " (" ++ toString timeoutMs ++ "ms)"

/-- The timeout closure armed in `request`: delete the entry and reject with
the timeout message.  The closure only runs while its timer is armed, which
holds exactly while the entry is still in the map, hence the lookup guard. -/
def fireRpcTimeout (c : WsClient) (id : String) : WsClient × List Effect :=
  match pendingFind c.pending id with
  | none => (c, [])
  | some (_, e) =>
    ({ c with pending := pendingErase c.pending id },
     [Effect.rpcReject id none (rpcTimeoutMessage e.method e.timeoutMs)])

/-- Character-list model of JS `String.prototype.startsWith`. -/
def startsWithChars : List Char → List Char → Bool
  | [], _ => true
  | _ :: _, [] => false
  | p :: ps, c :: cs => p == c && startsWithChars ps cs

/-- Character-list model of JS `String.prototype.includes`. -/
def containsChars (pat : List Char) : List Char → Bool
  | [] => startsWithChars pat []
  | c :: cs => startsWithChars pat (c :: cs) || containsChars pat cs

/-- JS `s.includes(pat)` on Lean strings. -/
def strIncludes (s pat : String) : Bool :=
  containsChars pat.data s.data

/-- The guard of the pairing branch in `sendConnect`'s catch block:
`code === "PAIRING_REQUIRED" || code === "DEVICE_IDENTITY_REQUIRED" ||
message.toLowerCase().includes("pairing required")`, with
`code = err.code ?? ""`. -/
def pairingIndicated (code : Option String) (message : String) : Bool :=
  let codeStr := code.getD ""
  codeStr == "PAIRING_REQUIRED" || codeStr == "DEVICE_IDENTITY_REQUIRED" ||
    strIncludes message.toLower "pairing required"

/-- `sendConnect` up to the `await this.request("connect", …)`: idempotency
guards (`connectSent`, missing nonce) and disarming the connect timeout.
Returns `true` when the connect RPC is actually issued. -/
def sendConnectBegin (c : WsClient) : WsClient × Bool :=
  if c.connectSent then (c, false)
  else
    match c.connectNonce with
    | none => (c, false)
    | some _ => ({ c with connectSent := true, connectTimer := false }, true)

/-- The parts of a successful `connect` response (`helloOk`) the client
reads: `auth.deviceToken` and `policy.tickIntervalMs`. -/
structure HelloOk where
  deviceToken : Option String
  tickIntervalMs : Option Nat
deriving DecidableEq, Repr

/-- Continuation of `sendConnect` after a successful `connect` response:
reset backoff to the floor, surface a freshly issued device token (when a
device identity exists), adopt a positive server tick interval, record a
tick now, arm the keep-alive watchdog, and enter `connected`. -/
def handleConnectSuccess (c : WsClient) (now : Nat) (hasIdentity : Bool)
    (helloOk : HelloOk) : WsClient × List Effect :=
  let c := { c with backoffMs := 1000 }
  let tokenEffs :=
    match helloOk.deviceToken, hasIdentity with
    | some tok, true => [Effect.deviceTokenReceived tok]
    | _, _ => []
  let c :=
    match helloOk.tickIntervalMs with
    | some t => if t > 0 then { c with tickIntervalMs := t } else c
    | none => c
  let c := { c with lastTick := some now }
  let c := startTickWatch c
  let (c, stEffs) := setState c .connected
  (c, tokenEffs ++ stEffs)

/-- Continuation of `sendConnect` after a failed `connect` response (the
catch block): on a pairing-required error, enter `pairing_required`, notify,
and request a clean close; otherwise surface a connect error and request an
abnormal close. -/
def handleConnectFailure (c : WsClient) (code : Option String)
    (message : String) : WsClient × List Effect :=
  if pairingIndicated code message then
    let (c, stEffs) := setState c .pairing_required
    (c, stEffs ++ [Effect.pairingRequired] ++
      (if c.ws then [Effect.wsClose (some 1000) "pairing required"] else []))
  else
    (c, [Effect.connectError message] ++
      (if c.ws then [Effect.wsClose (some 3008) "connect failed"] else []))

/-- Content block of a gateway chat message
(`{ type: string; text?: string }`). -/
structure ContentBlock where
  type : String
  text : Option String
deriving DecidableEq, Repr

/-- `ChatEventPayload.message`. -/
structure ChatMessageBody where
  role : String
  content : List ContentBlock
  timestamp : Nat
deriving DecidableEq, Repr

/-- Chat event payload from the gateway (`ChatEventPayload`).  `state` is kept
as a string so that unrecognized states fall through the dispatch switch
exactly as in the source. -/
structure ChatEventPayload where
  runId : String
  sessionKey : String
  seq : Nat
  state : String
  message : Option ChatMessageBody
  errorMessage : Option String
deriving DecidableEq, Repr

/-- Truthiness of the optional `text` field of a content block (JS: absent or
empty string is falsy). -/
def blockTextTruthy (b : ContentBlock) : Bool :=
  b.text.getD "" != ""

/-- `GatewayClient.extractTextFromChatMessage`: keep blocks with
`type === "text"` and truthy text, concatenate their texts with no
separator; yield `null` when no block survives (also for a missing
message). -/
def extractTextFromChatMessage (message : Option ChatMessageBody) : Option String :=
  match message with
  | none => none
  | some m =>
    let parts := (m.content.filter fun b => b.type == "text" && blockTextTruthy b).map
      fun b => b.text.getD ""
    if parts.length > 0 then some (String.join parts) else none

/-- Observable callback invocations of the chat session router: the
`onChunk` / `onDone` / `onError` callbacks the caller handed to
`sendMessageStreaming`, tagged with the run they belong to. -/
inductive ChatEffect where
  | chunk (runId text : String)
  | done (runId : String)
  | error (runId message : String)
deriving DecidableEq, Repr

/-- Chat-routing state of `GatewayClient`: the run ids currently registered
in `chatEventListeners`. -/
structure ChatRouter where
  listeners : List String
deriving DecidableEq, Repr

/-- Registration removal (`this.chatEventListeners.delete(runId)`). -/
def chatDeregister (c : ChatRouter) (runId : String) : ChatRouter :=
  { c with listeners := c.listeners.filter fun r => !(r == runId) }

/-- `GatewayClient.handleChatEvent` composed with the listener wrappers
registered in `sendMessageStreaming`: the registered `onDone`/`onError`
delete the run's registration before invoking the caller's callback, while
`onChunk` is the caller's callback unchanged.  Events whose run id is not
registered, and events with an unrecognized state, do nothing. -/
def handleChatEvent (c : ChatRouter) (event : ChatEventPayload) :
    ChatRouter × List ChatEffect :=
  if c.listeners.contains event.runId then
    if event.state == "delta" then
      (c,
       match extractTextFromChatMessage event.message with
       | some t => [ChatEffect.chunk event.runId t]
       | none => [])
    else if event.state == "final" then
      (chatDeregister c event.runId,
       (match extractTextFromChatMessage event.message with
        | some t => [ChatEffect.chunk event.runId t]
        | none => []) ++ [ChatEffect.done event.runId])
    else if event.state == "error" then
      (chatDeregister c event.runId,
       [ChatEffect.error event.runId (event.errorMessage.getD "Unknown gateway error")])
    else if event.state == "aborted" then
      (chatDeregister c event.runId, [ChatEffect.done event.runId])
    else (c, [])
  else (c, [])

/-- Fold `handleChatEvent` over a sequence of incoming chat events,
collecting the emitted callback invocations in order. -/
def runChatEvents (c : ChatRouter) : List ChatEventPayload → ChatRouter × List ChatEffect
  | [] => (c, [])
  | e :: es =>
    let (c, effs) := handleChatEvent c e
    let (c, rest) := runChatEvents c es
    (c, effs ++ rest)

/-- Bytes are modelled as natural numbers; a `Uint8Array` holds values
below 256. -/
abbrev Byte := Nat

/-- JS `b.toString(16).padStart(2, "0")` (lowercase hex, left-padded to two
digits), as used in `hexEncode`. -/
def hexByte (b : Byte) : String :=
  let s := (Nat.toDigits 16 b).asString
  if s.length < 2 then "0" ++ s else s

/-- `hexEncode` from device-identity.ts. -/
def hexEncode (bytes : List Byte) : String :=
  String.join (bytes.map hexByte)

/-- `base64UrlDecode` from device-identity.ts: undo the base64url character
substitutions, restore padding, decode.  The browser builtin `atob` is a
parameter (binary string in, binary string out); the resulting character
codes are the bytes. -/
def base64UrlDecode (atob : String → String) (s : String) : List Byte :=
  let mapped := s.map fun ch => if ch == '-' then '+' else if ch == '_' then '/' else ch
  let padded := mapped ++ String.mk (List.replicate ((4 - s.length % 4) % 4) '=')
  (atob padded).data.map Char.toNat

/-- `sha256Hex` from device-identity.ts: lowercase-hex encoding of the
digest.  The Web Crypto SHA-256 digest itself is a parameter. -/
def sha256Hex (sha256 : List Byte → List Byte) (data : List Byte) : String :=
  hexEncode (sha256 data)

/-- Serialized device identity (`DeviceIdentityData`). -/
structure DeviceIdentityData where
  version : Nat
  deviceId : String
  publicKey : String
  privateKey : String
  createdAtMs : Nat
deriving DecidableEq, Repr

/-- `validateDeviceIdentity`: re-derive the device id from the stored public
key; return the identity unchanged when consistent, otherwise a copy with
only `deviceId` corrected. -/
def validateDeviceIdentity (sha256 : List Byte → List Byte)
    (atob : String → String) (data : DeviceIdentityData) : DeviceIdentityData :=
  let pubBytes := base64UrlDecode atob data.publicKey
  let derivedId := sha256Hex sha256 pubBytes
  if derivedId ≠ data.deviceId then { data with deviceId := derivedId }
  else data

/-- Argument record of `buildDeviceAuthPayload`. -/
structure DeviceAuthParams where
  deviceId : String
  clientId : String
  clientMode : String
  role : String
  scopes : List String
  signedAtMs : Nat
  token : Option String
  nonce : String
deriving DecidableEq, Repr

/-- `buildDeviceAuthPayload` from device-identity.ts. -/
def buildDeviceAuthPayload (params : DeviceAuthParams) : String :=
  let scopes := String.intercalate "," params.scopes
  let token := params.token.getD ""
  String.intercalate "|"
    ["v2", params.deviceId, params.clientId, params.clientMode, params.role,
     scopes, toString params.signedAtMs, token, params.nonce]

/-- Sequence of state-change notifications emitted while processing a list
of requested states through `setState`. -/
def stateNotifications (c : WsClient) : List WsConnectionState → List WsConnectionState
  | [] => []
  | r :: rs =>
    let (c', effs) := setState c r
    (effs.filterMap fun e =>
      match e with
      | Effect.stateChange s => some s
      | _ => none) ++ stateNotifications c' rs

/-- A client that has opened its socket and is waiting on the connect RPC
(the state right after `ws.onopen` and `sendConnect`). -/
def demoAuthClient : WsClient :=
  { initialClient with
    state := .authenticating
    ws := true
    wsOpen := true
    connectNonce := some "nonce-1"
    connectSent := true }

/-- A connected client as produced by a successful connect response that
carried `policy.tickIntervalMs = 1000`, observed at time 0. -/
def demoConnectedClient : WsClient :=
  (handleConnectSuccess demoAuthClient 0 false ⟨none, some 1000⟩).1

/-- A client with one in-flight RPC, used to exercise `stop`/`start`. -/
def demoBusyClient : WsClient :=
  { demoAuthClient with pending := [("id-1", ⟨"chat.send", 60000⟩)] }

/-- A chat event for run `r1` of the end-to-end streaming scenario. -/
def chatEvent (st : String) (txt : Option String) : ChatEventPayload :=
  { runId := "r1"
    sessionKey := "main:123:abc"
    seq := 0
    state := st
    message := txt.map fun t =>
      { role := "assistant", content := [⟨"text", some t⟩], timestamp := 0 }
    errorMessage := none }

/-- The delta/delta/final/late-delta event sequence of the streaming
scenario. -/
def chatScenarioEvents : List ChatEventPayload :=
  [chatEvent "delta" (some "Hel"), chatEvent "delta" (some "Hello"),
   chatEvent "final" (some "Hello!"), chatEvent "delta" (some "late")]

/-- Auth payload arguments with scopes `["a", "b"]`. -/
def authParamsAB : DeviceAuthParams :=
  { deviceId := "dev-1"
    clientId := "webchat-ui"
    clientMode := "webchat"
    role := "operator"
    scopes := ["a", "b"]
    signedAtMs := 1234567890000
    token := some "tok-1"
    nonce := "nonce-1" }

/-- The same auth payload arguments with the two scopes swapped. -/
def authParamsBA : DeviceAuthParams :=
  { authParamsAB with scopes := ["b", "a"] }

/-- After erasing a correlation id, lookups for it fail. -/
theorem pendingFind_erase (l : List (String × PendingEntry)) (id : String) :
    pendingFind (pendingErase l id) id = none := by
  simp only [pendingFind, pendingErase, List.find?_eq_none, List.mem_filter]
  rintro x ⟨-, hx⟩
  simpa using hx

/-- After deregistering a run id, the membership test for it fails. -/
theorem contains_filter_ne (l : List String) (r : String) :
    (l.filter fun x => !(x == r)).contains r = false := by
  simp [List.mem_filter]

/-- C6: `buildDeviceAuthPayload` produces exactly the pipe-delimited string
`v2|deviceId|clientId|clientMode|role|scopes-comma-joined|signedAtMs|token|nonce`
(token empty when absent, scopes in the given order), and swapping two scopes
yields a different payload containing the swapped comma-joined substring. -/
theorem c6_buildDeviceAuthPayload_format :
    (∀ p : DeviceAuthParams,
      buildDeviceAuthPayload p =
        "v2" ++ "|" ++ p.deviceId ++ "|" ++ p.clientId ++ "|" ++ p.clientMode ++ "|" ++
        p.role ++ "|" ++ String.intercalate "," p.scopes ++ "|" ++
        toString p.signedAtMs ++ "|" ++ p.token.getD "" ++ "|" ++ p.nonce) ∧
    buildDeviceAuthPayload authParamsAB ≠ buildDeviceAuthPayload authParamsBA ∧
    strIncludes (buildDeviceAuthPayload authParamsAB) "a,b" = true ∧
    strIncludes (buildDeviceAuthPayload authParamsBA) "b,a" = true ∧
    strIncludes (buildDeviceAuthPayload authParamsAB) "b,a" = false ∧
    strIncludes (buildDeviceAuthPayload authParamsBA) "a,b" = false :=
  ⟨fun _ => rfl, by decide⟩

/-- C9: `setState` leaves the state unchanged and invokes no listener when
the requested state equals the current one, so the emitted notification
sequence never contains two consecutive equal states (nor starts with the
initial state). -/
theorem c9_state_change_dedup :
    (∀ (c : WsClient) (s : WsConnectionState), c.state = s → setState c s = (c, [])) ∧
    (∀ (c : WsClient) (reqs : List WsConnectionState),
      List.Chain (fun a b => a ≠ b) c.state (stateNotifications c reqs)) := by
  refine ⟨fun c s h => by simp [setState, h], fun c reqs => ?_⟩
  induction reqs generalizing c with
  | nil => exact List.Chain.nil
  | cons r rs ih =>
    by_cases h : c.state = r
    · simpa [stateNotifications, setState, h] using h ▸ ih c
    · simp only [stateNotifications, setState, h, if_neg h, List.filterMap,
        List.singleton_append]
      exact List.Chain.cons h (by simpa using ih { c with state := r })

/-- C9 witness: a redundant transition request is a no-op with no
notification. -/
theorem c9_state_change_dedup_witness :
    setState demoAuthClient .authenticating = (demoAuthClient, []) :=
  c9_state_change_dedup.1 demoAuthClient .authenticating rfl

/-- C4: the reconnect delay equals the current backoff, which then doubles
up to the 30000 ms ceiling; a transport-close failure schedules exactly that
delay; three consecutive connection failures schedule 1000, 2000, 4000 ms;
and a successful connect response resets the backoff to 1000 ms. -/
theorem c4_backoff :
    (∀ c : WsClient, c.closed = false →
      (scheduleReconnect c).reconnectTimer = some c.backoffMs ∧
      (scheduleReconnect c).backoffMs = min (c.backoffMs * 2) 30000 ∧
      (scheduleReconnect c).backoffMs ≤ 30000) ∧
    (∀ c : WsClient, c.closed = false →
      (wsOnClose c).1.reconnectTimer = some c.backoffMs ∧
      (wsOnClose c).1.backoffMs = min (c.backoffMs * 2) 30000) ∧
    ((let c0 := (connect initialClient true).1
      let c1 := (wsOnClose c0).1
      let c2 := (wsOnClose (reconnectTimerFire c1 true).1).1
      let c3 := (wsOnClose (reconnectTimerFire c2 true).1).1
      [c1.reconnectTimer, c2.reconnectTimer, c3.reconnectTimer]) =
        [some 1000, some 2000, some 4000]) ∧
    (∀ (c : WsClient) (now : Nat) (hasIdentity : Bool) (helloOk : HelloOk),
      (handleConnectSuccess c now hasIdentity helloOk).1.backoffMs = 1000) := by
  refine ⟨fun c h => ?_, fun c h => ?_, by decide, fun c now hid hello => ?_⟩
  · refine ⟨by simp [scheduleReconnect, clearTimers, h], by simp [scheduleReconnect, clearTimers, h], ?_⟩
    simp only [scheduleReconnect, clearTimers, h]
    simp
  · by_cases hs : ({ c with ws := false, wsOpen := false, pending := ([] : List (String × PendingEntry)) } : WsClient).state = WsConnectionState.reconnecting <;>
      simp [wsOnClose, flushPending, setState, scheduleReconnect, clearTimers, h, hs]
  · obtain ⟨dt, ti⟩ := hello
    cases ti with
    | none =>
      simp only [handleConnectSuccess, startTickWatch, setState]
      split <;> rfl
    | some t =>
      simp only [handleConnectSuccess, startTickWatch, setState]
      split <;> split <;> rfl

/-- C4 witness: the backoff facts evaluated on a live client with backoff
1000 and on a transport-close failure. -/
theorem c4_backoff_witness :
    demoAuthClient.closed = false ∧
    ((scheduleReconnect demoAuthClient).reconnectTimer = some demoAuthClient.backoffMs ∧
     (scheduleReconnect demoAuthClient).backoffMs = min (demoAuthClient.backoffMs * 2) 30000 ∧
     (scheduleReconnect demoAuthClient).backoffMs ≤ 30000) ∧
    ((wsOnClose demoAuthClient).1.reconnectTimer = some demoAuthClient.backoffMs ∧
     (wsOnClose demoAuthClient).1.backoffMs = min (demoAuthClient.backoffMs * 2) 30000) :=
  ⟨rfl, c4_backoff.1 demoAuthClient rfl, c4_backoff.2.1 demoAuthClient rfl⟩

/-- C3: a matching `ok` response resolves the call with the response payload
and removes the entry (clearing its timer); an unknown id is a no-op; a
timeout rejects with an error naming the method and duration and removes the
entry; after removal, a late response or timer firing for the same id is
ignored — each entry is resolved or rejected exactly once. -/
theorem c3_rpc_exactly_once (c : WsClient) (rid rid' : String) (e : PendingEntry)
    (p : Option GwPayload) (err : Option GwError)
    (h : pendingFind c.pending rid = some (rid', e)) :
    handleResponse c ⟨rid, true, p, err⟩ =
      ({ c with pending := pendingErase c.pending rid }, [Effect.rpcResolve rid p]) ∧
    fireRpcTimeout c rid =
      ({ c with pending := pendingErase c.pending rid },
       [Effect.rpcReject rid none (rpcTimeoutMessage e.method e.timeoutMs)]) ∧
    (∀ res : GatewayResponse, pendingFind c.pending res.id = none →
      handleResponse c res = (c, [])) ∧
    pendingFind (pendingErase c.pending rid) rid = none ∧
    handleResponse { c with pending := pendingErase c.pending rid } ⟨rid, true, p, err⟩ =
      ({ c with pending := pendingErase c.pending rid }, []) ∧
    fireRpcTimeout { c with pending := pendingErase c.pending rid } rid =
      ({ c with pending := pendingErase c.pending rid }, []) := by
  refine ⟨?_, ?_, ?_, pendingFind_erase c.pending rid, ?_, ?_⟩
  · simp [handleResponse, h]
  · simp [fireRpcTimeout, h]
  · intro res hres
    simp [handleResponse, hres]
  · simp [handleResponse, pendingFind_erase]
  · simp [fireRpcTimeout, pendingFind_erase]

/-- C3 witness: the exactly-once facts evaluated on a client with one
pending `chat.send` call. -/
theorem c3_rpc_exactly_once_witness :
    pendingFind demoBusyClient.pending "id-1" = some ("id-1", ⟨"chat.send", 60000⟩) ∧
    handleResponse demoBusyClient ⟨"id-1", true, some [("runId", "r1")], none⟩ =
      ({ demoBusyClient with pending := pendingErase demoBusyClient.pending "id-1" },
       [Effect.rpcResolve "id-1" (some [("runId", "r1")])]) ∧
    fireRpcTimeout demoBusyClient "id-1" =
      ({ demoBusyClient with pending := pendingErase demoBusyClient.pending "id-1" },
       [Effect.rpcReject "id-1" none (rpcTimeoutMessage "chat.send" 60000)]) :=
  ⟨by decide,
   (c3_rpc_exactly_once demoBusyClient "id-1" "id-1" ⟨"chat.send", 60000⟩
     (some [("runId", "r1")]) none (by decide)).1,
   (c3_rpc_exactly_once demoBusyClient "id-1" "id-1" ⟨"chat.send", 60000⟩
     (some [("runId", "r1")]) none (by decide)).2.1⟩

/-- C1 counterexample: after the pairing-required connect failure, the
transport-close handler fires with the `closed` flag unset, so the client
moves on to `reconnecting` and schedules an automatic reconnect (1000 ms
backoff) — no explicit start/restart is needed for a reconnect attempt. -/
theorem c1_pairing_counterexample :
    (wsOnClose (handleConnectFailure demoAuthClient
        (some "PAIRING_REQUIRED") "pairing required").1).1.state =
      WsConnectionState.reconnecting ∧
    (wsOnClose (handleConnectFailure demoAuthClient
        (some "PAIRING_REQUIRED") "pairing required").1).1.reconnectTimer = some 1000 := by
  decide

/-- C1 (amended): on a pairing-required connect failure the client moves
`authenticating → pairing_required`, invokes the pairing-required
notification exactly once, and requests a clean close (code 1000) without
scheduling anything itself; the subsequent transport-close handler then
moves to `reconnecting` and schedules an automatic reconnect after the
current backoff delay. -/
theorem c1_pairing_required_flow (c : WsClient) (code : Option String) (message : String)
    (hst : c.state = WsConnectionState.authenticating) (hcl : c.closed = false)
    (hws : c.ws = true) (hp : pairingIndicated code message = true) :
    (handleConnectFailure c code message).2 =
      [Effect.stateChange .pairing_required, Effect.pairingRequired,
       Effect.wsClose (some 1000) "pairing required"] ∧
    (handleConnectFailure c code message).2.count Effect.pairingRequired = 1 ∧
    (handleConnectFailure c code message).1.state = WsConnectionState.pairing_required ∧
    (handleConnectFailure c code message).1.reconnectTimer = c.reconnectTimer ∧
    (wsOnClose (handleConnectFailure c code message).1).1.state =
      WsConnectionState.reconnecting ∧
    (wsOnClose (handleConnectFailure c code message).1).1.reconnectTimer =
      some c.backoffMs := by
  refine ⟨?_, ?_, ?_, ?_, ?_, ?_⟩ <;>
    simp [handleConnectFailure, wsOnClose, setState, scheduleReconnect, clearTimers,
      flushPending, hp, hst, hcl, hws, List.count_cons]

/-- C1 witness: the amended pairing flow evaluated on a concrete
authenticating client. -/
theorem c1_pairing_required_flow_witness :
    (handleConnectFailure demoAuthClient (some "PAIRING_REQUIRED") "boom").2.count
      Effect.pairingRequired = 1 ∧
    (wsOnClose (handleConnectFailure demoAuthClient
        (some "PAIRING_REQUIRED") "boom").1).1.reconnectTimer =
      some demoAuthClient.backoffMs :=
  ⟨(c1_pairing_required_flow demoAuthClient (some "PAIRING_REQUIRED") "boom"
      rfl rfl rfl (by decide)).2.1,
   (c1_pairing_required_flow demoAuthClient (some "PAIRING_REQUIRED") "boom"
      rfl rfl rfl (by decide)).2.2.2.2.2⟩

/-- C2 counterexample: after `stop()`, a call to `start()` is a complete
no-op — the state stays `disconnected` and no transport is opened — because
`start` returns immediately while the `closed` flag is set. -/
theorem c2_start_after_stop_counterexample :
    (start (stop demoBusyClient).1 true).1 = (stop demoBusyClient).1 ∧
    (start (stop demoBusyClient).1 true).2 = [] ∧
    (start (stop demoBusyClient).1 true).1.state = WsConnectionState.disconnected := by
  decide

/-- C2 (amended): `stop()` sets the `closed` flag, cancels all timers,
closes the transport, rejects all pending RPCs and settles in
`disconnected`; afterwards `start()` is a no-op (the flag stays set), and
only `restart()` clears the flag, re-enters `connecting` and opens a new
transport. -/
theorem c2_stop_start_restart (c : WsClient) (ctorOk : Bool) :
    (stop c).1.closed = true ∧
    (stop c).1.connectTimer = false ∧
    (stop c).1.tickTimer = none ∧
    (stop c).1.reconnectTimer = none ∧
    (stop c).1.ws = false ∧
    (stop c).1.pending = [] ∧
    (stop c).1.state = WsConnectionState.disconnected ∧
    (stop c).2 =
      (if c.ws then [Effect.wsClose (some 1000) "client stopped"] else []) ++
      c.pending.map (fun p => Effect.rpcReject p.1 none "client stopped") ++
      (if c.state = WsConnectionState.disconnected then []
       else [Effect.stateChange WsConnectionState.disconnected]) ∧
    start (stop c).1 ctorOk = ((stop c).1, []) ∧
    (restart (stop c).1 true).1.state = WsConnectionState.connecting ∧
    (restart (stop c).1 true).1.closed = false ∧
    (restart (stop c).1 true).1.ws = true ∧
    (restart (stop c).1 true).2 =
      [Effect.stateChange WsConnectionState.connecting, Effect.wsCreate] := by
  by_cases hw : c.ws <;> by_cases hs : c.state = WsConnectionState.disconnected <;>
    refine ⟨?_, ?_, ?_, ?_, ?_, ?_, ?_, ?_, ?_, ?_, ?_, ?_, ?_⟩ <;>
    simp [stop, start, restart, connect, setState, clearTimers, flushPending,
      scheduleReconnect, hw, hs]

/-- C5: for a registered run, a `delta` event invokes `onChunk` with the
concatenated text of the message's text blocks; `final` invokes `onChunk`
once more then `onDone` and removes the registration, after which any event
for that run is ignored; `error` invokes `onError` with the gateway message
or the generic fallback and removes the registration; `aborted` invokes
`onDone` and removes the registration.  The streaming scenario observes
chunks "Hel", "Hello", "Hello!" then completion and nothing more. -/
theorem c5_chat_routing (c : ChatRouter) (r sk : String) (sq : Nat)
    (m : Option ChatMessageBody) (emsg : Option String)
    (hreg : c.listeners.contains r = true) :
    handleChatEvent c ⟨r, sk, sq, "delta", m, emsg⟩ =
      (c, match extractTextFromChatMessage m with
          | some t => [ChatEffect.chunk r t]
          | none => []) ∧
    handleChatEvent c ⟨r, sk, sq, "final", m, emsg⟩ =
      (chatDeregister c r,
       (match extractTextFromChatMessage m with
        | some t => [ChatEffect.chunk r t]
        | none => []) ++ [ChatEffect.done r]) ∧
    handleChatEvent c ⟨r, sk, sq, "error", m, emsg⟩ =
      (chatDeregister c r, [ChatEffect.error r (emsg.getD "Unknown gateway error")]) ∧
    handleChatEvent c ⟨r, sk, sq, "aborted", m, emsg⟩ =
      (chatDeregister c r, [ChatEffect.done r]) ∧
    (chatDeregister c r).listeners.contains r = false ∧
    (∀ ev : ChatEventPayload, ev.runId = r →
      handleChatEvent (chatDeregister c r) ev = (chatDeregister c r, [])) ∧
    runChatEvents ⟨["r1"]⟩ chatScenarioEvents =
      (⟨[]⟩, [ChatEffect.chunk "r1" "Hel", ChatEffect.chunk "r1" "Hello",
              ChatEffect.chunk "r1" "Hello!", ChatEffect.done "r1"]) := by
  have hmem : r ∈ c.listeners := by simpa using hreg
  refine ⟨?_, ?_, ?_, ?_, contains_filter_ne c.listeners r, ?_, by decide⟩
  · simp [handleChatEvent, hmem]
  · simp [handleChatEvent, hmem]
  · simp [handleChatEvent, hmem]
  · simp [handleChatEvent, hmem]
  · intro ev hev
    have hnot : ev.runId ∉ (chatDeregister c r).listeners := by
      rw [hev]
      simp [chatDeregister, List.mem_filter]
    simp [handleChatEvent, hnot]

/-- C5 witness: the streaming scenario, obtained from the routing theorem at
run `r1`. -/
theorem c5_chat_routing_witness :
    runChatEvents ⟨["r1"]⟩ chatScenarioEvents =
      (⟨[]⟩, [ChatEffect.chunk "r1" "Hel", ChatEffect.chunk "r1" "Hello",
              ChatEffect.chunk "r1" "Hello!", ChatEffect.done "r1"]) :=
  (c5_chat_routing ⟨["r1"]⟩ "r1" "main:123:abc" 0 none none (by decide)).2.2.2.2.2.2

/-- C10: when no content block has type `"text"` and non-empty text, the
extraction yields `null` (not the empty string), a `delta` event invokes no
callback at all, and a `final` event still invokes `onDone` and removes the
registration. -/
theorem c10_no_text_no_chunk (c : ChatRouter) (r sk : String) (sq : Nat)
    (m : ChatMessageBody) (emsg : Option String)
    (hreg : c.listeners.contains r = true)
    (hall : m.content.all (fun b => !(b.type == "text" && blockTextTruthy b)) = true) :
    extractTextFromChatMessage (some m) = none ∧
    handleChatEvent c ⟨r, sk, sq, "delta", some m, emsg⟩ = (c, []) ∧
    handleChatEvent c ⟨r, sk, sq, "final", some m, emsg⟩ =
      (chatDeregister c r, [ChatEffect.done r]) := by
  have hmem : r ∈ c.listeners := by simpa using hreg
  have hfilter : m.content.filter (fun b => b.type == "text" && blockTextTruthy b) = [] := by
    rw [List.filter_eq_nil_iff]
    intro a ha
    have h2 := (List.all_eq_true.mp hall) a ha
    simp at h2 ⊢
    tauto
  have hex : extractTextFromChatMessage (some m) = none := by
    simp [extractTextFromChatMessage, hfilter]
  refine ⟨hex, ?_, ?_⟩ <;> simp [handleChatEvent, hmem, hex]

/-- C10 witness: a message holding only an image block, an empty text block
and a text block with no text yields no chunk; a `final` event still
completes the run. -/
theorem c10_no_text_no_chunk_witness :
    extractTextFromChatMessage
      (some ⟨"assistant", [⟨"image", some "x"⟩, ⟨"text", some ""⟩, ⟨"text", none⟩], 0⟩) =
      none ∧
    handleChatEvent ⟨["r1"]⟩
      ⟨"r1", "sk", 0, "final",
       some ⟨"assistant", [⟨"image", some "x"⟩, ⟨"text", some ""⟩, ⟨"text", none⟩], 0⟩,
       none⟩ =
      (chatDeregister ⟨["r1"]⟩ "r1", [ChatEffect.done "r1"]) :=
  ⟨(c10_no_text_no_chunk ⟨["r1"]⟩ "r1" "sk" 0
      ⟨"assistant", [⟨"image", some "x"⟩, ⟨"text", some ""⟩, ⟨"text", none⟩], 0⟩
      none (by decide) (by decide)).1,
   (c10_no_text_no_chunk ⟨["r1"]⟩ "r1" "sk" 0
      ⟨"assistant", [⟨"image", some "x"⟩, ⟨"text", some ""⟩, ⟨"text", none⟩], 0⟩
      none (by decide) (by decide)).2.2⟩

set_option maxRecDepth 4096 in
/-- Hex encoding of a byte value is two lowercase hexadecimal digits. -/
theorem hexByte_two_lowercase_digits :
    ∀ b : Byte, b < 256 → (hexByte b).length = 2 ∧
      (hexByte b).data.all (fun ch => "0123456789abcdef".data.contains ch) = true := by
  decide

/-- C7: validation re-derives the device id as the lowercase-hex SHA-256 of
the decoded raw public key; the identity is returned unchanged when the
stored id matches and otherwise copied with only `deviceId` replaced —
public key, private key, version and creation time are always preserved,
and the resulting id always equals the re-derived one.  Hex encoding of a
byte is two lowercase hex digits. -/
theorem c7_validate_identity (sha256 : List Byte → List Byte)
    (atob : String → String) (d : DeviceIdentityData) :
    (validateDeviceIdentity sha256 atob d =
      if sha256Hex sha256 (base64UrlDecode atob d.publicKey) = d.deviceId then d
      else { d with deviceId := sha256Hex sha256 (base64UrlDecode atob d.publicKey) }) ∧
    (validateDeviceIdentity sha256 atob d).deviceId =
      sha256Hex sha256 (base64UrlDecode atob d.publicKey) ∧
    (validateDeviceIdentity sha256 atob d).publicKey = d.publicKey ∧
    (validateDeviceIdentity sha256 atob d).privateKey = d.privateKey ∧
    (validateDeviceIdentity sha256 atob d).createdAtMs = d.createdAtMs ∧
    (validateDeviceIdentity sha256 atob d).version = d.version ∧
    (∀ b : Byte, b < 256 → (hexByte b).length = 2 ∧
      (hexByte b).data.all (fun ch => "0123456789abcdef".data.contains ch) = true) := by
  by_cases h : sha256Hex sha256 (base64UrlDecode atob d.publicKey) = d.deviceId <;>
    refine ⟨?_, ?_, ?_, ?_, ?_, ?_, hexByte_two_lowercase_digits⟩ <;>
    simp [validateDeviceIdentity, h]

/-- C7 witness: a tampered identity is repaired from the public key (the
digest and decoder are concrete stand-ins). -/
theorem c7_validate_identity_witness :
    (validateDeviceIdentity (fun _ => [255, 0]) id ⟨1, "wrong", "pk", "sk", 42⟩).deviceId =
      sha256Hex (fun _ => [255, 0]) (base64UrlDecode id "pk") ∧
    (validateDeviceIdentity (fun _ => [255, 0]) id ⟨1, "wrong", "pk", "sk", 42⟩).publicKey =
      "pk" ∧
    ((hexByte 255).length = 2 ∧
      (hexByte 255).data.all (fun ch => "0123456789abcdef".data.contains ch) = true) :=
  ⟨(c7_validate_identity (fun _ => [255, 0]) id ⟨1, "wrong", "pk", "sk", 42⟩).2.1,
   (c7_validate_identity (fun _ => [255, 0]) id ⟨1, "wrong", "pk", "sk", 42⟩).2.2.1,
   (c7_validate_identity (fun _ => [255, 0]) id ⟨1, "wrong", "pk", "sk", 42⟩).2.2.2.2.2.2
     255 (by decide)⟩

/-- C8: the keep-alive watchdog runs with period
`max(serverTickInterval, 1000)` and closes the transport abnormally (code
4000) exactly when the elapsed time since the last tick exceeds 2.5 times
the tick interval; with a 1000 ms tick interval, silence past 2500 ms makes
the next check close the socket, and the close handler then moves to
`reconnecting`. -/
theorem c8_tick_watchdog :
    (∀ c : WsClient, (startTickWatch c).tickTimer = some (max c.tickIntervalMs 1000)) ∧
    (∀ (c : WsClient) (now lt : Nat), c.closed = false → c.lastTick = some lt →
      c.ws = true →
      tickCheck c now =
        (c, if 2 * (now - lt) > 5 * c.tickIntervalMs
            then [Effect.wsClose (some 4000) "tick timeout"] else [])) ∧
    demoConnectedClient.tickIntervalMs = 1000 ∧
    demoConnectedClient.tickTimer = some 1000 ∧
    (tickCheck demoConnectedClient 2000).2 = [] ∧
    (tickCheck demoConnectedClient 2500).2 = [] ∧
    (tickCheck demoConnectedClient 3000).2 = [Effect.wsClose (some 4000) "tick timeout"] ∧
    (wsOnClose demoConnectedClient).1.state = WsConnectionState.reconnecting ∧
    (wsOnClose demoConnectedClient).1.reconnectTimer = some 1000 := by
  refine ⟨fun c => rfl, ?_, by decide, by decide, by decide, by decide, by decide,
    by decide, by decide⟩
  intro c now lt hcl hlt hws
  by_cases hgt : 2 * (now - lt) > 5 * c.tickIntervalMs <;>
    simp [tickCheck, hcl, hlt, hws, hgt]

/-- C8 witness: the watchdog check at 3000 ms of silence on the connected
demo client closes the socket abnormally. -/
theorem c8_tick_watchdog_witness :
    tickCheck demoConnectedClient 3000 =
      (demoConnectedClient, [Effect.wsClose (some 4000) "tick timeout"]) := by
  have h := c8_tick_watchdog.2.1 demoConnectedClient 3000 0 rfl rfl rfl
  rw [h]
  decide
